import Mathlib

/-!
Verification of the bookstore catalog backend: a shallow embedding of the
book search/filter composer (`books/views.py`), the bulk-delete endpoints,
and the CSV import pipeline (`books/management/commands/import_books.py`),
together with proofs settling the specification claims.

Strings are manipulated through their underlying character lists so that
every definition evaluates by kernel reduction.  Decimal values (Django
`DecimalField`, Python `decimal.Decimal`) are modelled by the scaled-integer
type `Dec` below, mirroring Python's coefficient/exponent representation;
comparisons are value comparisons, exactly as in Python.
-/

namespace Bookstore

/-- The single-quote character, written via its code point. -/
def sq : Char := Char.ofNat 39

/-- The double-quote character, written via its code point. -/
def dq : Char := Char.ofNat 34

/-- ASCII lower-casing of one character (the case folding used by the
case-insensitive `icontains` lookups and by `str.lower()` on the ASCII
inputs relevant here). -/
def lowChar (c : Char) : Char :=
  if 65 ≤ c.toNat ∧ c.toNat ≤ 90 then Char.ofNat (c.toNat + 32) else c

/-- Lower-case a character list. -/
def lowList (l : List Char) : List Char := l.map lowChar

/-- Whitespace characters stripped by Python `str.strip()`. -/
def isSpaceChar (c : Char) : Bool :=
  c == ' ' || c == '\t' || c == '\n' || c == '\r' || c == '\x0b' || c == '\x0c'

/-- Drop leading characters satisfying `p`. -/
def dropLead (p : Char → Bool) : List Char → List Char
  | [] => []
  | c :: cs => if p c then dropLead p cs else c :: cs

/-- Python `str.strip()` on a character list: remove whitespace at both ends. -/
def trimList (l : List Char) : List Char :=
  dropLead isSpaceChar ((dropLead isSpaceChar l.reverse).reverse)

/-- Python `str.strip(chars)`: remove characters of `cs` at both ends. -/
def stripSet (cs : List Char) (l : List Char) : List Char :=
  dropLead (fun c => cs.contains c) ((dropLead (fun c => cs.contains c) l.reverse).reverse)

/-- `leadMatch n h`: `n` is an initial run of `h`. -/
def leadMatch : List Char → List Char → Bool
  | [], _ => true
  | _ :: _, [] => false
  | a :: as, b :: bs => a == b && leadMatch as bs

/-- `subMatch n h`: `n` occurs contiguously inside `h`. -/
def subMatch (n : List Char) : List Char → Bool
  | [] => leadMatch n []
  | b :: bs => leadMatch n (b :: bs) || subMatch n bs

/-- Case-insensitive containment, the semantics of Django's `icontains`
lookup (and of the spec's "case-insensitive substring match"). -/
def icontains (needle : String) (hay : String) : Bool :=
  subMatch (lowList needle.data) (lowList hay.data)

/-- `icontains` against a nullable column: SQL comparisons with NULL are
false, so a NULL field never matches. -/
def icontainsOpt (needle : String) : Option String → Bool
  | some h => icontains needle h
  | none => false

/-- ASCII digit test. -/
def isDigitC (c : Char) : Bool := 48 ≤ c.toNat && c.toNat ≤ 57

/-- Numeric value of an ASCII digit. -/
def digitVal (c : Char) : Nat := c.toNat - 48

/-- Value of a digit string, most significant digit first. -/
def digitsToNat (l : List Char) : Nat := l.foldl (fun a c => a * 10 + digitVal c) 0

/-- Python `str.isdigit()` for ASCII content: nonempty and all digits. -/
def pyIsDigit (l : List Char) : Bool := !l.isEmpty && l.all isDigitC

/-- Leading run of digits and the remainder. -/
def spanDigits : List Char → List Char × List Char
  | [] => ([], [])
  | c :: cs =>
    if isDigitC c then
      let p := spanDigits cs
      (c :: p.1, p.2)
    else ([], c :: cs)

/-- Python `str.split` on the two-character separator `"',"` (quote-comma),
used all over the import pipeline's pseudo-list parsing. -/
def splitQC : List Char → List (List Char)
  | [] => [[]]
  | [c] => [[c]]
  | c1 :: c2 :: cs =>
    if c1 == sq && c2 == ',' then
      [] :: splitQC cs
    else
      match splitQC (c2 :: cs) with
      | [] => [[c1]]
      | h :: t => (c1 :: h) :: t

/-!  ## Decimal values

`Dec` is Python's `Decimal`/Django's `DecimalField` value: an integer
coefficient with a decimal exponent, denoting `num / 10 ^ exp`.  Order and
equality are value comparisons, as in Python. -/

structure Dec where
  num : Int
  exp : Nat
deriving DecidableEq, Repr

/-- Value order on decimals: `a ≤ b` after rescaling to a common exponent. -/
def Dec.leB (a b : Dec) : Bool := decide (a.num * 10 ^ b.exp ≤ b.num * 10 ^ a.exp)

/-- Strict value order on decimals. -/
def Dec.ltB (a b : Dec) : Bool := decide (a.num * 10 ^ b.exp < b.num * 10 ^ a.exp)

/-- Value equality on decimals (`Decimal("12.50") == Decimal("12.5")`). -/
def Dec.eqv (a b : Dec) : Bool := decide (a.num * 10 ^ b.exp = b.num * 10 ^ a.exp)

/-- Python truthiness of a decimal: zero is falsy. -/
def Dec.isZero (a : Dec) : Bool := a.num == 0

/-!  ## Search/filter composer (`BookViewSet.search`, `books/views.py`)

A catalog row as the composer sees it: the book's own columns plus the
joined columns reached by the query (`author__name`, `series__name`,
`publisher__name`, `genres__id`).  Dates are encoded by their ordinal as an
integer, which is all the composer's comparisons use. -/

structure SBook where
  id : Nat
  title : String
  authorName : String
  description : Option String
  isbn : String
  seriesName : Option String
  publisherName : Option String
  categoryId : Option Nat
  authorId : Nat
  publisherId : Option Nat
  languageId : Option Nat
  seriesId : Option Nat
  bookFormat : Option String
  genres : List Nat
  price : Dec
  averageRating : Option Dec
  publicationDate : Int
  coverImage : Option String
  coverImageUrl : Option String
deriving DecidableEq, Repr

/-- The validated data of `BookSearchSerializer`: every recognized parameter
is independently optional (`none` = not supplied). -/
structure SearchParams where
  search : Option String := none
  category : Option Nat := none
  author : Option Nat := none
  publisher : Option Nat := none
  language : Option Nat := none
  series : Option Nat := none
  genres : Option (List Nat) := none
  book_format : Option String := none
  min_price : Option Dec := none
  max_price : Option Dec := none
  min_rating : Option Dec := none
  max_rating : Option Dec := none
  min_publication_date : Option Int := none
  max_publication_date : Option Int := none
  favorites_only : Option Bool := none
  has_cover_image : Option Bool := none
deriving Repr

/-- Request context: the (possibly unauthenticated) caller and the
`Favorite` table of (user id, book id) pairs. -/
structure Env where
  user : Option Nat := none
  favorites : List (Nat × Nat) := []
deriving Repr

/-- `Favorite.objects.filter(user=u).values_list("book_id", flat=True)`. -/
def favoriteIds (env : Env) (u : Nat) : List Nat :=
  (env.favorites.filter (fun p => p.1 == u)).map (fun p => p.2)

/-!  The view guards every filter with `if data.get(key):`, i.e. Python
truthiness — `None`, `0`, `Decimal("0")`, `""`, `[]` and `False` all skip
the filter.  The `truthy…` maps make that explicit; date values are date
objects and are always truthy. -/

def truthyStr : Option String → Option String
  | some s => if s = "" then none else some s
  | none => none

def truthyNat : Option Nat → Option Nat
  | some n => if n = 0 then none else some n
  | none => none

def truthyDec : Option Dec → Option Dec
  | some d => if d.isZero then none else some d
  | none => none

def truthyList : Option (List Nat) → Option (List Nat)
  | some l => if l = [] then none else some l
  | none => none

def truthyBool : Option Bool → Option Bool
  | some b => if b then some true else none
  | none => none

/-- The Q-object disjunction of the free-text search:
title / author name / description / ISBN / series name / publisher name,
each via case-insensitive containment. -/
def searchPred (t : String) (b : SBook) : Bool :=
  icontains t b.title || icontains t b.authorName || icontainsOpt t b.description ||
    icontains t b.isbn || icontainsOpt t b.seriesName || icontainsOpt t b.publisherName

def categoryPred (v : Nat) (b : SBook) : Bool := b.categoryId == some v

def authorPred (v : Nat) (b : SBook) : Bool := b.authorId == v

def publisherPred (v : Nat) (b : SBook) : Bool := b.publisherId == some v

def languagePred (v : Nat) (b : SBook) : Bool := b.languageId == some v

def seriesPred (v : Nat) (b : SBook) : Bool := b.seriesId == some v

def formatPred (v : String) (b : SBook) : Bool := b.bookFormat == some v

/-- `genres__id__in`: the book has at least one of the requested genre ids. -/
def genreAny (gs : List Nat) (b : SBook) : Bool := b.genres.any (fun g => gs.contains g)

def minPricePred (v : Dec) (b : SBook) : Bool := v.leB b.price

def maxPricePred (v : Dec) (b : SBook) : Bool := b.price.leB v

/-- `average_rating__gte`: SQL semantics, a NULL rating never matches. -/
def minRatingPred (v : Dec) (b : SBook) : Bool :=
  match b.averageRating with
  | some r => v.leB r
  | none => false

def maxRatingPred (v : Dec) (b : SBook) : Bool :=
  match b.averageRating with
  | some r => r.leB v
  | none => false

def minDatePred (v : Int) (b : SBook) : Bool := decide (v ≤ b.publicationDate)

def maxDatePred (v : Int) (b : SBook) : Bool := decide (b.publicationDate ≤ v)

/-- `Q(cover_image__isnull=False) | Q(cover_image_url__isnull=False)`. -/
def coverPred (b : SBook) : Bool := b.coverImage.isSome || b.coverImageUrl.isSome

def favPred (env : Env) (u : Nat) (b : SBook) : Bool := (favoriteIds env u).contains b.id

/-- One conditional `queryset.filter(...)` step: applied only when the
guard value is present (after the truthiness mapping). -/
def condFilter (o : Option α) (f : α → SBook → Bool) (l : List SBook) : List SBook :=
  match o with
  | none => l
  | some v => l.filter (f v)

/-- The genre step: `queryset.filter(genres__id__in=gs).distinct()`.  The
many-to-many join yields one row per matching genre, and `.distinct()`
collapses the repeats. -/
def genreJoin (o : Option (List Nat)) (l : List SBook) : List SBook :=
  match o with
  | none => l
  | some gs =>
    (l.flatMap (fun b => (b.genres.filter (fun g => gs.contains g)).map (fun _ => b))).dedup

/-- The favorites step: applied only when `favorites_only` is truthy AND
the caller is authenticated (otherwise a no-op, per the code). -/
def favStep (p : SearchParams) (env : Env) (l : List SBook) : List SBook :=
  match truthyBool p.favorites_only with
  | none => l
  | some _ =>
    match env.user with
    | none => l
    | some u => l.filter (favPred env u)

/-- The composed filter chain of `BookViewSet.search`, step for step in the
order of the source.  Ordering and pagination permute and slice the result
but do not change the result set, so they are not part of this model. -/
def search_action (p : SearchParams) (env : Env) (catalog : List SBook) : List SBook :=
  favStep p env
    (condFilter (truthyBool p.has_cover_image) (fun _ b => coverPred b)
      (condFilter p.max_publication_date maxDatePred
        (condFilter p.min_publication_date minDatePred
          (condFilter (truthyDec p.max_rating) maxRatingPred
            (condFilter (truthyDec p.min_rating) minRatingPred
              (condFilter (truthyDec p.max_price) maxPricePred
                (condFilter (truthyDec p.min_price) minPricePred
                  (genreJoin (truthyList p.genres)
                    (condFilter (truthyStr p.book_format) formatPred
                      (condFilter (truthyNat p.series) seriesPred
                        (condFilter (truthyNat p.language) languagePred
                          (condFilter (truthyNat p.publisher) publisherPred
                            (condFilter (truthyNat p.author) authorPred
                              (condFilter (truthyNat p.category) categoryPred
                                (condFilter (truthyStr p.search) searchPred
                                  catalog)))))))))))))))

/-- `optB o f` holds when the optional parameter, if present, satisfies its
predicate — the "conjunction over supplied predicate groups" connective. -/
def optB (o : Option α) (f : α → Bool) : Bool :=
  match o with
  | none => true
  | some v => f v

/-- The claim's predicate, written from the spec's words: a book belongs to
the result set iff every SUPPLIED parameter's predicate group holds —
free-text search as an OR over six fields, genres as an at-least-one
membership, and each remaining filter as stated.  (Refinement target: this
is the spec side, to be compared with `search_action`.) -/
def matchesSpec (p : SearchParams) (env : Env) (b : SBook) : Bool :=
  optB p.search (fun t => searchPred t b) &&
  optB p.category (fun v => categoryPred v b) &&
  optB p.author (fun v => authorPred v b) &&
  optB p.publisher (fun v => publisherPred v b) &&
  optB p.language (fun v => languagePred v b) &&
  optB p.series (fun v => seriesPred v b) &&
  optB p.book_format (fun v => formatPred v b) &&
  optB p.genres (fun gs => genreAny gs b) &&
  optB p.min_price (fun v => minPricePred v b) &&
  optB p.max_price (fun v => maxPricePred v b) &&
  optB p.min_rating (fun v => minRatingPred v b) &&
  optB p.max_rating (fun v => maxRatingPred v b) &&
  optB p.min_publication_date (fun v => minDatePred v b) &&
  optB p.max_publication_date (fun v => maxDatePred v b) &&
  optB p.has_cover_image (fun x => if x then coverPred b else true) &&
  optB p.favorites_only (fun x =>
    if x then
      match env.user with
      | none => true
      | some u => favPred env u b
    else true)

/-- The amended predicate: identical to `matchesSpec` except that a
parameter counts as supplied only when its value is truthy (non-zero,
nonempty, true), matching the view's `if data.get(...)` guards. -/
def matchesTruthy (p : SearchParams) (env : Env) (b : SBook) : Bool :=
  optB (truthyStr p.search) (fun t => searchPred t b) &&
  optB (truthyNat p.category) (fun v => categoryPred v b) &&
  optB (truthyNat p.author) (fun v => authorPred v b) &&
  optB (truthyNat p.publisher) (fun v => publisherPred v b) &&
  optB (truthyNat p.language) (fun v => languagePred v b) &&
  optB (truthyNat p.series) (fun v => seriesPred v b) &&
  optB (truthyStr p.book_format) (fun v => formatPred v b) &&
  optB (truthyList p.genres) (fun gs => genreAny gs b) &&
  optB (truthyDec p.min_price) (fun v => minPricePred v b) &&
  optB (truthyDec p.max_price) (fun v => maxPricePred v b) &&
  optB (truthyDec p.min_rating) (fun v => minRatingPred v b) &&
  optB (truthyDec p.max_rating) (fun v => maxRatingPred v b) &&
  optB p.min_publication_date (fun v => minDatePred v b) &&
  optB p.max_publication_date (fun v => maxDatePred v b) &&
  optB (truthyBool p.has_cover_image) (fun _ => coverPred b) &&
  optB (truthyBool p.favorites_only) (fun _ =>
    match env.user with
    | none => true
    | some u => favPred env u b)

theorem mem_condFilter {o : Option α} {f : α → SBook → Bool} {l : List SBook} {b : SBook} :
    b ∈ condFilter o f l ↔ b ∈ l ∧ optB o (fun v => f v b) = true := by
  cases o <;> simp [condFilter, optB, List.mem_filter]

theorem mem_genreJoin {o : Option (List Nat)} {l : List SBook} {b : SBook} :
    b ∈ genreJoin o l ↔ b ∈ l ∧ optB o (fun gs => genreAny gs b) = true := by
  cases o with
  | none => simp [genreJoin, optB]
  | some gs =>
    simp only [genreJoin, optB, genreAny, List.mem_dedup, List.mem_flatMap, List.mem_map,
      List.mem_filter, List.any_eq_true]
    constructor
    · rintro ⟨a, ha, x, ⟨hx, hgs⟩, rfl⟩
      exact ⟨ha, x, hx, hgs⟩
    · rintro ⟨hb, x, hx, hgs⟩
      exact ⟨b, hb, x, ⟨hx, hgs⟩, rfl⟩

theorem mem_favStep {p : SearchParams} {env : Env} {l : List SBook} {b : SBook} :
    b ∈ favStep p env l ↔ b ∈ l ∧ optB (truthyBool p.favorites_only) (fun _ =>
      match env.user with
      | none => true
      | some u => favPred env u b) = true := by
  unfold favStep
  cases truthyBool p.favorites_only <;> cases hu : env.user <;>
    simp [optB, List.mem_filter, hu]

/-- C1 (amended): for every catalog and every combination of search
parameters, a book is in the composer's result set iff it is in the
unfiltered catalog and satisfies the conjunction of all supplied TRUTHY
predicate groups (free-text search as an OR over title/author
name/description/ISBN/series name/publisher name; genres as at-least-one
requested id, deduplicated; every other truthy filter simultaneously).
The amendment: a supplied parameter whose value is falsy (zero, empty,
false) is ignored by the view's `if data.get(...)` guards. -/
theorem search_result_is_truthy_conjunction (p : SearchParams) (env : Env)
    (catalog : List SBook) (b : SBook) :
    b ∈ search_action p env catalog ↔ b ∈ catalog ∧ matchesTruthy p env b = true := by
  simp only [search_action, mem_favStep, mem_condFilter, mem_genreJoin, matchesTruthy,
    Bool.and_eq_true]
  tauto

/-- A concrete catalog row for counterexamples: price 9.99, no rating. -/
def cexBook : SBook :=
  { id := 1, title := "Dune", authorName := "Frank Herbert", description := none,
    isbn := "9780441013593", seriesName := none, publisherName := none,
    categoryId := none, authorId := 1, publisherId := none, languageId := none,
    seriesId := none, bookFormat := none, genres := [], price := ⟨999, 2⟩,
    averageRating := none, publicationDate := 0, coverImage := none,
    coverImageUrl := none }

/-- A valid parameter combination supplying `max_price = Decimal("0.00")`. -/
def cexParams : SearchParams := { max_price := some ⟨0, 2⟩ }

/-- C1 counterexample: with `max_price = 0` supplied (a valid serializer
value), the composer returns the book priced 9.99 — `Decimal("0")` is falsy,
so the view skips the filter — although the book does not satisfy the
supplied predicate `price ≤ 0`; the result set is not the subset satisfying
all supplied predicate groups. -/
theorem search_zero_max_price_not_filtered :
    search_action cexParams {} [cexBook] = [cexBook] ∧
      matchesSpec cexParams {} cexBook = false := by
  constructor
  · rfl
  · decide

/-!  ## Bulk delete (`BookViewSet.bulk_delete`, `bulk_delete_filtered`) -/

/-- Response of the id-list bulk delete: a validation error (empty or
absent id list), or success with the reported deleted count. -/
inductive BulkDeleteOutcome where
  | invalid
  | ok (deletedCount : Nat)
deriving DecidableEq, Repr

/-- The catalog as the delete endpoints touch it: the Book rows, the
`Favorite` rows (user id, book id) — which cascade on Book deletion
(`on_delete=CASCADE`) — and the three auto-created many-to-many through
tables (book id, related id), whose rows are likewise collected by
`QuerySet.delete()`. -/
structure CatalogState where
  books : List SBook := []
  favorites : List (Nat × Nat) := []
  genreLinks : List (Nat × Nat) := []
  characterLinks : List (Nat × Nat) := []
  awardLinks : List (Nat × Nat) := []
deriving DecidableEq, Repr

/-- The cascaded rows counted by `QuerySet.delete()` for the deleted book
ids: their Favorite rows and their genre/character/award through rows. -/
def cascadeCount (st : CatalogState) (ids : List Nat) : Nat :=
  (st.favorites.filter (fun p => ids.contains p.2)).length +
    (st.genreLinks.filter (fun p => ids.contains p.1)).length +
    (st.characterLinks.filter (fun p => ids.contains p.1)).length +
    (st.awardLinks.filter (fun p => ids.contains p.1)).length

/-- `queryset.delete()` on a set of Book rows: the first element of the
returned tuple is the TOTAL number of objects deleted — the Book rows plus
every cascaded Favorite row and m2m through row — and the state loses all
of them. -/
def deleteBooks (st : CatalogState) (doomed : List SBook) : Nat × CatalogState :=
  let ids := doomed.map (fun b => b.id)
  (doomed.length + cascadeCount st ids,
    { books := st.books.filter (fun b => decide (b ∉ doomed))
      favorites := st.favorites.filter (fun p => !ids.contains p.2)
      genreLinks := st.genreLinks.filter (fun p => !ids.contains p.1)
      characterLinks := st.characterLinks.filter (fun p => !ids.contains p.1)
      awardLinks := st.awardLinks.filter (fun p => !ids.contains p.1) })

/-- `BulkDeleteSerializer` + `BookViewSet.bulk_delete`: the id list is
required and must be nonempty (`validate_book_ids`), else the request is
rejected before any data access; otherwise
`deleted_count, _ = Book.objects.filter(id__in=book_ids).delete()` — the
reported count is `delete()`'s total including the cascades. -/
def bulk_delete (book_ids : Option (List Nat)) (st : CatalogState) :
    BulkDeleteOutcome × CatalogState :=
  match book_ids with
  | none => (.invalid, st)
  | some [] => (.invalid, st)
  | some ids =>
    let res := deleteBooks st (st.books.filter (fun b => ids.contains b.id))
    (.ok res.1, res.2)

/-- The free-text disjunction of the filtered delete path: only title,
author name and description (narrower than the search action's six). -/
def delSearchPred (t : String) (b : SBook) : Bool :=
  icontains t b.title || icontains t b.authorName || icontainsOpt t b.description

/-- The filter chain of `bulk_delete_filtered`, step for step in source
order, followed by `queryset.delete()`; the favorites-only step reads the
same Favorite table that the deletion cascades over.  The reported count
is `delete()`'s total including the cascades. -/
def bulk_delete_filtered (p : SearchParams) (user : Option Nat) (st : CatalogState) :
    Nat × CatalogState :=
  deleteBooks st
    (favStep p ⟨user, st.favorites⟩
      (condFilter p.max_publication_date maxDatePred
        (condFilter p.min_publication_date minDatePred
          (condFilter (truthyDec p.max_price) maxPricePred
            (condFilter (truthyDec p.min_price) minPricePred
              (condFilter (truthyNat p.author) authorPred
                (condFilter (truthyNat p.category) categoryPred
                  (condFilter (truthyStr p.search) delSearchPred st.books))))))))

/-- The claim's predicate for the filtered delete, from the spec's words:
a book is removed iff every SUPPLIED filter of this path's surface (search,
category, author, price range, date range, favorites-only) holds for it. -/
def matchesDeleteSpec (p : SearchParams) (env : Env) (b : SBook) : Bool :=
  optB p.search (fun t => delSearchPred t b) &&
  optB p.category (fun v => categoryPred v b) &&
  optB p.author (fun v => authorPred v b) &&
  optB p.min_price (fun v => minPricePred v b) &&
  optB p.max_price (fun v => maxPricePred v b) &&
  optB p.min_publication_date (fun v => minDatePred v b) &&
  optB p.max_publication_date (fun v => maxDatePred v b) &&
  optB p.favorites_only (fun x =>
    if x then
      match env.user with
      | none => true
      | some u => favPred env u b
    else true)

/-- The amended predicate: as `matchesDeleteSpec` but a parameter counts as
supplied only when truthy, matching the view's guards. -/
def matchesDeleteTruthy (p : SearchParams) (env : Env) (b : SBook) : Bool :=
  optB (truthyStr p.search) (fun t => delSearchPred t b) &&
  optB (truthyNat p.category) (fun v => categoryPred v b) &&
  optB (truthyNat p.author) (fun v => authorPred v b) &&
  optB (truthyDec p.min_price) (fun v => minPricePred v b) &&
  optB (truthyDec p.max_price) (fun v => maxPricePred v b) &&
  optB p.min_publication_date (fun v => minDatePred v b) &&
  optB p.max_publication_date (fun v => maxDatePred v b) &&
  optB (truthyBool p.favorites_only) (fun _ =>
    match env.user with
    | none => true
    | some u => favPred env u b)

theorem condFilter_eq_filter (o : Option α) (f : α → SBook → Bool) (l : List SBook) :
    condFilter o f l = l.filter (fun b => optB o (fun v => f v b)) := by
  cases o <;> simp [condFilter, optB]

theorem favStep_eq_filter (p : SearchParams) (env : Env) (l : List SBook) :
    favStep p env l = l.filter (fun b => optB (truthyBool p.favorites_only) (fun _ =>
      match env.user with
      | none => true
      | some u => favPred env u b)) := by
  unfold favStep
  cases truthyBool p.favorites_only <;> cases hu : env.user <;> simp [optB, hu]

theorem bulk_delete_filtered_matched (p : SearchParams) (env : Env) (books : List SBook) :
    favStep p env
      (condFilter p.max_publication_date maxDatePred
        (condFilter p.min_publication_date minDatePred
          (condFilter (truthyDec p.max_price) maxPricePred
            (condFilter (truthyDec p.min_price) minPricePred
              (condFilter (truthyNat p.author) authorPred
                (condFilter (truthyNat p.category) categoryPred
                  (condFilter (truthyStr p.search) delSearchPred books))))))) =
      books.filter (fun b => matchesDeleteTruthy p env b) := by
  simp only [condFilter_eq_filter, favStep_eq_filter, List.filter_filter]
  apply List.filter_congr
  intro b _
  rw [Bool.eq_iff_iff]
  simp only [matchesDeleteTruthy, Bool.and_eq_true]
  tauto

/-- The resulting Book table of a deletion of a filtered subset: exactly
the books failing the filter remain. -/
theorem deleteBooks_books (st : CatalogState) (q : SBook → Bool) :
    (deleteBooks st (st.books.filter q)).2.books = st.books.filter (fun b => !q b) := by
  simp only [deleteBooks]
  apply List.filter_congr
  intro b hb
  simp [List.mem_filter, hb]

/-- C2 (amended): both bulk delete paths report the first element of
Django `delete()`'s tuple — the TOTAL number of rows removed: the matching
Book rows PLUS the cascaded Favorite rows and genre/character/award
through rows of those books (equal to the number of Book records only when
the deleted books carry no favorites and no links) — and the filtered path
removes exactly the books matching the supplied TRUTHY filters
(min_price/max_price inclusively via >= and <=), a supplied falsy filter
value being ignored by the view's `if data.get(...)` guards. -/
theorem bulk_delete_reported_totals (i : Nat) (rest : List Nat) (st : CatalogState)
    (p : SearchParams) (user : Option Nat) (st2 : CatalogState) :
    (bulk_delete (some (i :: rest)) st).1 =
      .ok ((st.books.filter (fun b => (i :: rest).contains b.id)).length +
        cascadeCount st
          ((st.books.filter (fun b => (i :: rest).contains b.id)).map (fun b => b.id))) ∧
    (bulk_delete (some (i :: rest)) st).2.books =
      st.books.filter (fun b => !(i :: rest).contains b.id) ∧
    (bulk_delete_filtered p user st2).1 =
      (st2.books.filter (fun b => matchesDeleteTruthy p ⟨user, st2.favorites⟩ b)).length +
        cascadeCount st2
          ((st2.books.filter (fun b => matchesDeleteTruthy p ⟨user, st2.favorites⟩ b)).map
            (fun b => b.id)) ∧
    (bulk_delete_filtered p user st2).2.books =
      st2.books.filter (fun b => !matchesDeleteTruthy p ⟨user, st2.favorites⟩ b) := by
  refine ⟨rfl, ?_, ?_, ?_⟩
  · exact deleteBooks_books st _
  · simp only [bulk_delete_filtered, bulk_delete_filtered_matched]
    rfl
  · simp only [bulk_delete_filtered, bulk_delete_filtered_matched]
    exact deleteBooks_books st2 _

/-- C2 counterexample, both divergences of the original claim: (a) the
id-list delete of the single 9.99 book that has one favorite reports
`deleted_count = 2` — `delete()`'s total counts the cascaded Favorite row
— although exactly one Book record was removed; (b) the filtered delete
with `max_price = Decimal("0")` supplied removes that book and reports 1,
although the book does not match the supplied predicate `price ≤ 0`
(`Decimal("0")` is falsy, so the view never applies the bound). -/
theorem bulk_delete_count_includes_cascades :
    bulk_delete (some [1]) ⟨[cexBook], [(7, 1)], [], [], []⟩ =
      (.ok 2, ⟨[], [], [], [], []⟩) ∧
    bulk_delete_filtered cexParams none ⟨[cexBook], [], [], [], []⟩ =
      (1, ⟨[], [], [], [], []⟩) ∧
    matchesDeleteSpec cexParams {} cexBook = false := by
  refine ⟨by decide, by decide, by decide⟩

/-- C10 (confirmed): a bulk delete whose id list is absent or empty is
rejected by validation before any data access and the catalog is unchanged
— no book, favorite, or link row is deleted. -/
theorem bulk_delete_empty_ids_rejected (st : CatalogState) :
    bulk_delete none st = (.invalid, st) ∧
      bulk_delete (some []) st = (.invalid, st) := ⟨rfl, rfl⟩

/-!  ## Numeric parsing (`parse_price`, `parse_int`, `parse_rating`)

`pyDecimal` models Python's `Decimal(str)` and `pyFloat` models
`float(str)` on their finite numeric inputs: optional sign, digits with an
optional decimal point, optional exponent; `Decimal` removes underscores
throughout, `float` accepts them only between digits.  The special values
(`nan`, `inf`) are modelled as parse failures: in every call site of the
the import pipeline they end in the same fallback as a failure — `nan`
comparisons raise (caught), `inf` fails every range check and `int(inf)`
raises (caught). -/

/-- Optional leading sign. -/
def parseSign : List Char → (Int × List Char)
  | c :: cs => if c == '+' then (1, cs) else if c == '-' then (-1, cs) else (1, c :: cs)
  | [] => (1, [])

/-- Mantissa: digits with an optional decimal point (at least one digit in
total).  Returns (coefficient, number of fraction digits, remainder). -/
def parseMantissa (l : List Char) : Option (Nat × Nat × List Char) :=
  let p := spanDigits l
  match p.2 with
  | '.' :: r2 =>
    let q := spanDigits r2
    if p.1.isEmpty && q.1.isEmpty then none
    else some (digitsToNat (p.1 ++ q.1), q.1.length, q.2)
  | _ => if p.1.isEmpty then none else some (digitsToNat p.1, 0, p.2)

/-- A full numeric string: sign, mantissa, optional exponent, nothing left. -/
def decNumParse (l : List Char) : Option Dec :=
  let s0 := parseSign l
  match parseMantissa s0.2 with
  | none => none
  | some (coef, fracLen, r1) =>
    match r1 with
    | [] => some ⟨s0.1 * coef, fracLen⟩
    | e :: r2 =>
      if e == 'e' || e == 'E' then
        let s1 := parseSign r2
        let d := spanDigits s1.2
        if d.1.isEmpty || !d.2.isEmpty then none
        else
          let sc : Int := s1.1 * (digitsToNat d.1 : Int) - (fracLen : Int)
          if 0 ≤ sc then some ⟨s0.1 * coef * 10 ^ sc.toNat, 0⟩
          else some ⟨s0.1 * coef, (-sc).toNat⟩
      else none

/-- Python `Decimal(str)` on finite numerals: strip surrounding whitespace,
remove underscores throughout, then the numeric grammar. -/
def pyDecimal (l : List Char) : Option Dec :=
  decNumParse ((trimList l).filter (fun c => !(c == '_')))

/-- Every underscore sits between two digits (PEP 515, as `float` checks). -/
def underscoreOk : Option Char → List Char → Bool
  | _, [] => true
  | p, c :: cs =>
    if c == '_' then
      match p, cs with
      | some pc, n :: _ => isDigitC pc && isDigitC n && underscoreOk (some c) cs
      | _, _ => false
    else underscoreOk (some c) cs

/-- Python `float(str)` on finite numerals. -/
def pyFloat (l : List Char) : Option Dec :=
  let t := trimList l
  if underscoreOk none t then decNumParse (t.filter (fun c => !(c == '_'))) else none

/-- The fixed default price `Decimal("9.99")`. -/
def defaultPrice : Dec := ⟨999, 2⟩

/-- `str(price_str).replace("$", "").replace(",", "").strip()`. -/
def cleanPrice (s : String) : List Char :=
  trimList (s.data.filter (fun c => !(c == '$') && !(c == ',')))

/-- `Command.parse_price`: default on falsy input or the literal `'""'`;
otherwise clean, parse as `Decimal`, and keep the value only when
`price > 0 and price < 1000`; every failure path yields the default. -/
def parse_price (price_str : Option String) : Dec :=
  match price_str with
  | none => defaultPrice
  | some s =>
    if s = "" || s = String.mk [dq, dq] then defaultPrice
    else
      let t := cleanPrice s
      if t.isEmpty then defaultPrice
      else
        match pyDecimal t with
        | some d => if Dec.ltB ⟨0, 0⟩ d && Dec.ltB d ⟨1000, 0⟩ then d else defaultPrice
        | none => defaultPrice

theorem parse_price_characterization (s : String) :
    parse_price (some s) =
      (match pyDecimal (cleanPrice s) with
       | some d => if Dec.ltB ⟨0, 0⟩ d && Dec.ltB d ⟨1000, 0⟩ then d else defaultPrice
       | none => defaultPrice) := by
  by_cases h1 : s = ""
  · subst h1; rfl
  by_cases h2 : s = String.mk [dq, dq]
  · subst h2; rfl
  by_cases h3 : (cleanPrice s).isEmpty
  · have he : cleanPrice s = [] := List.isEmpty_iff.mp h3
    simp [parse_price, h1, h2, he]
    rfl
  · simp [parse_price, h1, h2, h3]

/-- C6 (confirmed): `parse_price` strips currency symbols and thousands
separators and returns the parsed decimal exactly when it lies strictly
between 0 and 1000; every other input — absent, empty, the `'""'` literal,
non-numeric, zero, negative, or at least 1000 — yields the default 9.99.
In particular `"$12.50"` yields 12.50 and `"abc"` yields 9.99. -/
theorem parse_price_range_or_default :
    (∀ s : String, parse_price (some s) =
      (match pyDecimal (cleanPrice s) with
       | some d => if Dec.ltB ⟨0, 0⟩ d && Dec.ltB d ⟨1000, 0⟩ then d else defaultPrice
       | none => defaultPrice)) ∧
    parse_price none = defaultPrice ∧
    Dec.eqv (parse_price (some "$12.50")) ⟨1250, 2⟩ = true ∧
    parse_price (some "abc") = defaultPrice ∧
    parse_price (some "0") = defaultPrice ∧
    parse_price (some "-5") = defaultPrice ∧
    parse_price (some "1000") = defaultPrice := by
  refine ⟨parse_price_characterization, rfl, ?_, ?_, ?_, ?_, ?_⟩ <;> decide

/-- Round-half-even to two decimal places of a nonnegative decimal value,
modelling Python's `round(x, 2)` on the exact value (binary-float
representation error at exact ties is below the resolution any claim
tests). -/
def round2 (d : Dec) : Dec :=
  if d.exp ≤ 2 then ⟨d.num * 10 ^ (2 - d.exp), 2⟩
  else if 2 * d.num.emod (10 ^ (d.exp - 2)) < 10 ^ (d.exp - 2) then
    ⟨d.num.ediv (10 ^ (d.exp - 2)), 2⟩
  else if (10 : Int) ^ (d.exp - 2) < 2 * d.num.emod (10 ^ (d.exp - 2)) then
    ⟨d.num.ediv (10 ^ (d.exp - 2)) + 1, 2⟩
  else if d.num.ediv (10 ^ (d.exp - 2)) % 2 = 0 then ⟨d.num.ediv (10 ^ (d.exp - 2)), 2⟩
  else ⟨d.num.ediv (10 ^ (d.exp - 2)) + 1, 2⟩

/-- `Command.parse_int`: strip thousands separators, parse via
`int(float(...))` (truncation toward zero), keep only values strictly
between 0 and 10000 — the "reasonable page count range" — else `None`. -/
def parse_int (int_str : Option String) : Option Nat :=
  match int_str with
  | none => none
  | some s =>
    if s = "" then none
    else
      match pyFloat (s.data.filter (fun c => !(c == ','))) with
      | none => none
      | some d =>
        let v := d.num.tdiv (10 ^ d.exp)
        if 0 < v ∧ v < 10000 then some v.toNat else none

/-- `Command.parse_rating`: parse as float, accept only [0.0, 5.0], round
to two decimals; else `None`. -/
def parse_rating (rating_str : Option String) : Option Dec :=
  match rating_str with
  | none => none
  | some s =>
    if s = "" then none
    else
      match pyFloat s.data with
      | none => none
      | some d =>
        if Dec.leB ⟨0, 0⟩ d && Dec.leB d ⟨5, 0⟩ then some (round2 d) else none

theorem round2_num_bounds (d : Dec) (h0 : 0 ≤ d.num) (h5 : d.num ≤ 5 * 10 ^ d.exp) :
    0 ≤ (round2 d).num ∧ (round2 d).num ≤ 500 ∧ (round2 d).exp = 2 := by
  unfold round2
  by_cases he : d.exp ≤ 2
  · rw [if_pos he]
    refine ⟨by positivity, ?_, rfl⟩
    calc d.num * 10 ^ (2 - d.exp) ≤ 5 * 10 ^ d.exp * 10 ^ (2 - d.exp) := by
          exact mul_le_mul_of_nonneg_right h5 (by positivity)
      _ = 5 * 10 ^ (d.exp + (2 - d.exp)) := by rw [mul_assoc, pow_add]
      _ = 500 := by
          have : d.exp + (2 - d.exp) = 2 := by omega
          rw [this]; norm_num
  · rw [if_neg he]
    have hp : (0 : Int) < 10 ^ (d.exp - 2) := by positivity
    have hsplit : 10 ^ (d.exp - 2) * (d.num.ediv (10 ^ (d.exp - 2))) +
        d.num.emod (10 ^ (d.exp - 2)) = d.num := Int.ediv_add_emod _ _
    have hq0 : 0 ≤ d.num.ediv (10 ^ (d.exp - 2)) := Int.ediv_nonneg h0 hp.le
    have h500 : (5 * 10 ^ d.exp : Int) = 500 * 10 ^ (d.exp - 2) := by
      have h2 : d.exp = 2 + (d.exp - 2) := by omega
      calc (5 * 10 ^ d.exp : Int) = 5 * 10 ^ (2 + (d.exp - 2)) := by rw [← h2]
        _ = 500 * 10 ^ (d.exp - 2) := by rw [pow_add]; ring
    have hqle : d.num.ediv (10 ^ (d.exp - 2)) ≤ 500 := by
      have hle : d.num.ediv (10 ^ (d.exp - 2)) ≤
          ((5 * 10 ^ d.exp : Int)).ediv (10 ^ (d.exp - 2)) := Int.ediv_le_ediv hp h5
      have heq : ((5 * 10 ^ d.exp : Int)).ediv (10 ^ (d.exp - 2)) = 500 := by
        rw [h500]; exact Int.mul_ediv_cancel 500 hp.ne'
      omega
    have hqlt : 0 < d.num.emod (10 ^ (d.exp - 2)) →
        d.num.ediv (10 ^ (d.exp - 2)) + 1 ≤ 500 := by
      intro hr
      by_contra hc
      have hq500 : d.num.ediv (10 ^ (d.exp - 2)) = 500 := by omega
      rw [hq500] at hsplit
      have hnle : d.num ≤ 500 * 10 ^ (d.exp - 2) := by
        calc d.num ≤ 5 * 10 ^ d.exp := h5
          _ = 500 * 10 ^ (d.exp - 2) := h500
      omega
    by_cases hb1 : 2 * d.num.emod (10 ^ (d.exp - 2)) < 10 ^ (d.exp - 2)
    · rw [if_pos hb1]
      exact ⟨hq0, hqle, rfl⟩
    · rw [if_neg hb1]
      have hrpos : 0 < d.num.emod (10 ^ (d.exp - 2)) := by
        have := Int.emod_nonneg d.num hp.ne'
        omega
      by_cases hb2 : (10 : Int) ^ (d.exp - 2) < 2 * d.num.emod (10 ^ (d.exp - 2))
      · rw [if_pos hb2]
        exact ⟨by dsimp only; omega, hqlt hrpos, rfl⟩
      · rw [if_neg hb2]
        by_cases hb3 : d.num.ediv (10 ^ (d.exp - 2)) % 2 = 0
        · rw [if_pos hb3]
          exact ⟨hq0, hqle, rfl⟩
        · rw [if_neg hb3]
          exact ⟨by dsimp only; omega, hqlt hrpos, rfl⟩

/-- Whenever `parse_rating` returns a value, it lies within [0, 5]. -/
theorem parse_rating_in_range (s : Option String) :
    (parse_rating s).all (fun r => Dec.leB ⟨0, 0⟩ r && Dec.leB r ⟨5, 0⟩) = true := by
  match s with
  | none => rfl
  | some str =>
    show (if str = "" then none
      else match pyFloat str.data with
        | none => none
        | some d =>
          if Dec.leB ⟨0, 0⟩ d && Dec.leB d ⟨5, 0⟩ then some (round2 d)
          else none).all (fun r => Dec.leB ⟨0, 0⟩ r && Dec.leB r ⟨5, 0⟩) = true
    by_cases h1 : str = ""
    · simp [h1]
    rw [if_neg h1]
    cases hf : pyFloat str.data with
    | none => rfl
    | some d =>
      simp only []
      by_cases hg : (Dec.leB ⟨0, 0⟩ d && Dec.leB d ⟨5, 0⟩) = true
      · rw [if_pos hg]
        rw [Bool.and_eq_true] at hg
        have h0 : 0 ≤ d.num := by
          have := of_decide_eq_true hg.1
          simpa using this
        have h5 : d.num ≤ 5 * 10 ^ d.exp := by
          have := of_decide_eq_true hg.2
          simpa using this
        obtain ⟨hr0, hr5, hrexp⟩ := round2_num_bounds d h0 h5
        simp only [Option.all_some, Bool.and_eq_true, Dec.leB, decide_eq_true_iff]
        constructor
        · simpa [hrexp] using hr0
        · simp only [hrexp]
          norm_num
          omega
      · rw [if_neg hg]
        rfl

/-!  ## Date parsing (`Command.parse_date`)

`strptime…` model `datetime.strptime(s, fmt).date()` for the four fixed
format strings: each directive's digit run is matched greedily (`%m`/`%d`
accept one or two digits, `%y` exactly two, `%Y` exactly four — the
regexes of Python's `_strptime`), the whole input must be consumed, and
`datetime` construction validates the calendar date.  `django_parse_date`
models `django.utils.dateparse.parse_date` (not part of this repository):
an anchored `YYYY-MM-DD` with one- or two-digit month/day; an invalid
calendar date raises, which the surrounding `except` turns into the
default. -/

structure PyDate where
  year : Nat
  month : Nat
  day : Nat
deriving DecidableEq, Repr

def isLeapYear (y : Nat) : Bool := y % 4 == 0 && (y % 100 != 0 || y % 400 == 0)

def daysInMonth (y m : Nat) : Nat :=
  if m == 2 then (if isLeapYear y then 29 else 28)
  else if m == 4 || m == 6 || m == 9 || m == 11 then 30
  else 31

/-- The dates `datetime.date` can represent (year 1..9999, real calendar). -/
def validDate (y m d : Nat) : Bool :=
  1 ≤ y && y ≤ 9999 && 1 ≤ m && m ≤ 12 && 1 ≤ d && d ≤ daysInMonth y m

/-- One or two digits, greedily. -/
def take2Digits : List Char → Option (Nat × List Char)
  | [] => none
  | [c] => if isDigitC c then some (digitVal c, []) else none
  | c1 :: c2 :: cs =>
    if isDigitC c1 then
      if isDigitC c2 then some (digitVal c1 * 10 + digitVal c2, cs)
      else some (digitVal c1, c2 :: cs)
    else none

/-- Exactly two digits. -/
def take2Exact : List Char → Option (Nat × List Char)
  | c1 :: c2 :: cs =>
    if isDigitC c1 && isDigitC c2 then some (digitVal c1 * 10 + digitVal c2, cs) else none
  | _ => none

/-- Exactly four digits. -/
def take4Exact : List Char → Option (Nat × List Char)
  | c1 :: c2 :: c3 :: c4 :: cs =>
    if isDigitC c1 && isDigitC c2 && isDigitC c3 && isDigitC c4 then
      some (((digitVal c1 * 10 + digitVal c2) * 10 + digitVal c3) * 10 + digitVal c4, cs)
    else none
  | _ => none

/-- A literal character. -/
def litChar (c : Char) : List Char → Option (List Char)
  | x :: xs => if x == c then some xs else none
  | [] => none

/-- `"%m/%d/%y"`; two-digit years pivot 00-68 to 2000-2068 and 69-99 to
1969-1999, so `99` is 1999. -/
def strptimeMDY2 (l : List Char) : Option PyDate := do
  let (m, r1) ← take2Digits l
  let r2 ← litChar '/' r1
  let (d, r3) ← take2Digits r2
  let r4 ← litChar '/' r3
  let (yy, r5) ← take2Exact r4
  if !r5.isEmpty then none
  else
    let y := if yy ≤ 68 then 2000 + yy else 1900 + yy
    if 1 ≤ m && m ≤ 12 && 1 ≤ d && d ≤ 31 && validDate y m d then some ⟨y, m, d⟩ else none

/-- `"%m/%d/%Y"`. -/
def strptimeMDY4 (l : List Char) : Option PyDate := do
  let (m, r1) ← take2Digits l
  let r2 ← litChar '/' r1
  let (d, r3) ← take2Digits r2
  let r4 ← litChar '/' r3
  let (y, r5) ← take4Exact r4
  if !r5.isEmpty then none
  else if 1 ≤ m && m ≤ 12 && 1 ≤ d && d ≤ 31 && validDate y m d then some ⟨y, m, d⟩
  else none

/-- `"%Y-%m-%d"`. -/
def strptimeYMD (l : List Char) : Option PyDate := do
  let (y, r1) ← take4Exact l
  let r2 ← litChar '-' r1
  let (m, r3) ← take2Digits r2
  let r4 ← litChar '-' r3
  let (d, r5) ← take2Digits r4
  if !r5.isEmpty then none
  else if 1 ≤ m && m ≤ 12 && 1 ≤ d && d ≤ 31 && validDate y m d then some ⟨y, m, d⟩
  else none

/-- `"%d/%m/%Y"`. -/
def strptimeDMY4 (l : List Char) : Option PyDate := do
  let (d, r1) ← take2Digits l
  let r2 ← litChar '/' r1
  let (m, r3) ← take2Digits r2
  let r4 ← litChar '/' r3
  let (y, r5) ← take4Exact r4
  if !r5.isEmpty then none
  else if 1 ≤ m && m ≤ 12 && 1 ≤ d && d ≤ 31 && validDate y m d then some ⟨y, m, d⟩
  else none

/-- The in-loop acceptance test: `1900 <= parsed_date.year <= 2030`. -/
def formatYearOk (d : PyDate) : Bool := 1900 ≤ d.year && d.year ≤ 2030

/-- The format loop: the first format that parses AND passes the year test
wins; a format that parses with an out-of-range year just moves on. -/
def tryFormatList : List (List Char → Option PyDate) → List Char → Option PyDate
  | [], _ => none
  | f :: fs, l =>
    match f l with
    | some d => if formatYearOk d then some d else tryFormatList fs l
    | none => tryFormatList fs l

/-- The fixed ordered format list of `parse_date`. -/
def importFormats : List (List Char → Option PyDate) :=
  [strptimeMDY2, strptimeMDY4, strptimeYMD, strptimeDMY4]

/-- Modelled from the spec and the Django library: the generic fallback
parser, anchored `YYYY-MM-DD`. -/
def django_parse_date (l : List Char) : Option PyDate := do
  let (y, r1) ← take4Exact l
  let r2 ← litChar '-' r1
  let (m, r3) ← take2Digits r2
  let r4 ← litChar '-' r3
  let (d, r5) ← take2Digits r4
  if !r5.isEmpty then none
  else if validDate y m d then some ⟨y, m, d⟩ else none

/-- The fixed default date 2000-01-01. -/
def defaultDate : PyDate := ⟨2000, 1, 1⟩

/-- `Command.parse_date`: falsy input defaults; then the format loop; then
the Django fallback — whose result is returned WITHOUT the year check;
anything else defaults. -/
def parse_date (date_str : Option String) : PyDate :=
  match date_str with
  | none => defaultDate
  | some s =>
    if s = "" then defaultDate
    else
      match tryFormatList importFormats (trimList s.data) with
      | some d => d
      | none =>
        match django_parse_date (trimList s.data) with
        | some d => d
        | none => defaultDate

theorem tryFormatList_year_ok (fs : List (List Char → Option PyDate)) (l : List Char)
    (d : PyDate) (h : tryFormatList fs l = some d) : formatYearOk d = true := by
  induction fs with
  | nil => simp [tryFormatList] at h
  | cons f fs ih =>
    simp only [tryFormatList] at h
    cases hf : f l with
    | none =>
      rw [hf] at h
      exact ih h
    | some d0 =>
      rw [hf] at h
      dsimp only at h
      by_cases hy : formatYearOk d0 = true
      · rw [if_pos hy] at h
        have hd := Option.some.inj h
        subst hd
        exact hy
      · rw [if_neg hy] at h
        exact ih h

/-- C5 counterexample: `"1850-01-01"` is rejected by every fixed format
(the `%Y-%m-%d` parse fails the year test) but the generic fallback parses
it and its result is returned unchecked — the year 1850 lies outside
[1900, 2030] yet the result is not the default 2000-01-01. -/
theorem parse_date_fallback_year_unchecked :
    parse_date (some "1850-01-01") = ⟨1850, 1, 1⟩ ∧
      formatYearOk ⟨1850, 1, 1⟩ = false ∧
      (⟨1850, 1, 1⟩ : PyDate) ≠ defaultDate := by
  refine ⟨by decide, by decide, by decide⟩

/-- C5 (amended): every `parse_date` result is the default 2000-01-01, or
comes from the fixed ordered format list with its year within [1900, 2030],
or comes from the generic fallback parser — whose result is returned
without the year restriction.  The two-digit-year pivot gives
`"01/15/99"` the date 1999-01-15, and a non-ISO input with an out-of-range
year such as `"01/15/2150"` falls back to the default. -/
theorem parse_date_default_or_parsed :
    (∀ s : Option String,
      parse_date s = defaultDate ∨
      (∃ d, tryFormatList importFormats (trimList ((s.getD "").data)) = some d ∧
        parse_date s = d ∧ 1900 ≤ d.year ∧ d.year ≤ 2030) ∨
      (∃ d, django_parse_date (trimList ((s.getD "").data)) = some d ∧
        parse_date s = d)) ∧
    parse_date (some "01/15/99") = ⟨1999, 1, 15⟩ ∧
    parse_date (some "01/15/2150") = defaultDate := by
  refine ⟨?_, by decide, by decide⟩
  intro s
  match s with
  | none => exact Or.inl rfl
  | some str =>
    show parse_date (some str) = defaultDate ∨ _ ∨ _
    by_cases h1 : str = ""
    · subst h1; exact Or.inl rfl
    · have hshape : parse_date (some str) =
          (match tryFormatList importFormats (trimList str.data) with
           | some d => d
           | none =>
             match django_parse_date (trimList str.data) with
             | some d => d
             | none => defaultDate) := by
        simp [parse_date, h1]
      cases ht : tryFormatList importFormats (trimList str.data) with
      | some d =>
        refine Or.inr (Or.inl ⟨d, by simpa using ht, ?_, ?_, ?_⟩)
        · rw [hshape, ht]
        · have := tryFormatList_year_ok _ _ _ ht
          simp only [formatYearOk, Bool.and_eq_true, decide_eq_true_iff] at this
          exact this.1
        · have := tryFormatList_year_ok _ _ _ ht
          simp only [formatYearOk, Bool.and_eq_true, decide_eq_true_iff] at this
          exact this.2
      | none =>
        cases hd : django_parse_date (trimList str.data) with
        | some d =>
          refine Or.inr (Or.inr ⟨d, by simpa using hd, ?_⟩)
          rw [hshape, ht, hd]
        | none =>
          refine Or.inl ?_
          rw [hshape, ht, hd]

/-!  ## ISBN handling (`Command.process_row`, the isbn fragment)

The pseudo-id is `hash(title + author_name) % 100000000` rendered by the
format spec `:08d`.  Python's builtin `hash` on strings is salted per
interpreter process (hash randomization), so it is a PARAMETER of the
model: one `pyHash` per run. -/

/-- The character of a decimal digit. -/
def digitChar (n : Nat) : Char := Char.ofNat (48 + n % 10)

/-- The eight-digit zero-padded decimal rendering produced by `:08d` for a
value below `10 ^ 8`. -/
def natDigits8 (n : Nat) : List Char :=
  [digitChar (n / 10000000), digitChar (n / 1000000), digitChar (n / 100000),
    digitChar (n / 10000), digitChar (n / 1000), digitChar (n / 100),
    digitChar (n / 10), digitChar n]

/-- `f"AUTO{hash(title + author_name) % 100000000:08d}"`; Python `%` on a
positive modulus is the nonnegative `emod`. -/
def synthIsbn (pyHash : String → Int) (title author : String) : String :=
  String.mk ('A' :: 'U' :: 'T' :: 'O' ::
    natDigits8 ((pyHash (title ++ author)).emod 100000000).toNat)

/-- The ISBN branch of `process_row`: synthesize when the (stripped) ISBN
is missing, the sentinel `"9999999999999"`, or longer than 13 characters;
otherwise truncate to the first 13 characters. -/
def isbnOfRow (pyHash : String → Int) (title author isbn : String) : String :=
  if isbn = "" || isbn = "9999999999999" || decide (isbn.data.length > 13) then
    synthIsbn pyHash title author
  else String.mk (isbn.data.take 13)

/-- Reading the digits back. -/
def decodeDigitList (l : List Char) : Nat := l.foldl (fun a c => a * 10 + (c.toNat - 48)) 0

theorem digitChar_toNat (k : Nat) : (digitChar k).toNat = 48 + k % 10 := by
  have hk : k % 10 < 10 := Nat.mod_lt _ (by norm_num)
  unfold digitChar
  set r := k % 10 with hr
  interval_cases r <;> decide

theorem decode_natDigits8 (n : Nat) (h : n < 100000000) :
    decodeDigitList (natDigits8 n) = n := by
  simp only [natDigits8, decodeDigitList, List.foldl, digitChar_toNat]
  omega

/-- C3 (code-bug support): the synthesized ISBN is `"AUTO"` plus the
eight-digit rendering of `hash(title+author) % 10^8`, and it is injective
in that hash residue — two interpreter runs whose (salted) string hashes
disagree at `title + author` synthesize DIFFERENT ISBNs for the same
record, so the synthesis is deterministic only within one process, not
across runs as the spec requires. -/
theorem isbn_synthesis_hash_dependent (h1 h2 : String → Int) (t a : String)
    (hne : (h1 (t ++ a)).emod 100000000 ≠ (h2 (t ++ a)).emod 100000000) :
    isbnOfRow h1 t a "" ≠ isbnOfRow h2 t a "" := by
  intro heq
  apply hne
  have hn1 : (0 : Int) ≤ (h1 (t ++ a)).emod 100000000 :=
    Int.emod_nonneg _ (by norm_num)
  have hn2 : (0 : Int) ≤ (h2 (t ++ a)).emod 100000000 :=
    Int.emod_nonneg _ (by norm_num)
  have hl1 : (h1 (t ++ a)).emod 100000000 < 100000000 :=
    Int.emod_lt_of_pos _ (by norm_num)
  have hl2 : (h2 (t ++ a)).emod 100000000 < 100000000 :=
    Int.emod_lt_of_pos _ (by norm_num)
  have hlists : natDigits8 ((h1 (t ++ a)).emod 100000000).toNat =
      natDigits8 ((h2 (t ++ a)).emod 100000000).toNat := by
    have hmk := heq
    simp only [isbnOfRow, synthIsbn] at hmk
    have hdata := congrArg String.data hmk
    simpa using hdata
  have hdec : ((h1 (t ++ a)).emod 100000000).toNat =
      ((h2 (t ++ a)).emod 100000000).toNat := by
    have e1 := decode_natDigits8 ((h1 (t ++ a)).emod 100000000).toNat (by omega)
    have e2 := decode_natDigits8 ((h2 (t ++ a)).emod 100000000).toNat (by omega)
    rw [← e1, ← e2, hlists]
  omega

theorem isbn_synthesis_hash_dependent_witness :
    ((fun _ : String => (0 : Int)) ("A" ++ "B")).emod 100000000 ≠
        ((fun _ : String => (1 : Int)) ("A" ++ "B")).emod 100000000 ∧
      isbnOfRow (fun _ => (0 : Int)) "A" "B" "" ≠ isbnOfRow (fun _ => (1 : Int)) "A" "B" "" :=
  ⟨by decide, isbn_synthesis_hash_dependent (fun _ => 0) (fun _ => 1) "A" "B" (by decide)⟩

/-!  ## Normalized-entity resolver (get-or-create by natural key) -/

/-- A relation's table: rows keyed by surrogate id, plus the next id. -/
structure Table (α : Type) where
  rows : List (Nat × α) := []
  nextId : Nat := 1
deriving Repr

/-- Django's `Model.objects.get_or_create(**key, defaults=...)`: exactly
one row matching the key is returned with the table unchanged; no matching
row inserts `mk`; several matching rows raise `MultipleObjectsReturned`
(`none`). -/
def getOrCreate (t : Table α) (key : α → Bool) (mk : α) : Option ((Nat × α) × Table α) :=
  match t.rows.filter (fun r => key r.2) with
  | [r] => some (r, t)
  | [] => some ((t.nextId, mk), ⟨t.rows ++ [(t.nextId, mk)], t.nextId + 1⟩)
  | _ => none

structure AuthorR where
  name : String
  bio : String
  nationality : String
deriving DecidableEq, Repr

/-- The author-name normalization of `get_or_create_author`: first
comma-separated author (stripped), trailing parenthetical dropped
(stripped), truncated to 100 characters. -/
def normalizeAuthorName (author_name : String) : String :=
  let l0 := author_name.data
  let l1 := if l0.contains ',' then trimList (l0.takeWhile (fun c => !(c == ','))) else l0
  let l2 := if l1.contains '(' then trimList (l1.takeWhile (fun c => !(c == '('))) else l1
  String.mk (l2.take 100)

/-- `Command.get_or_create_author`: resolve by (normalized) name with
placeholder bio and nationality defaults. -/
def get_or_create_author (t : Table AuthorR) (author_name : String) :
    Option ((Nat × AuthorR) × Table AuthorR) :=
  getOrCreate t (fun a => a.name == normalizeAuthorName author_name)
    ⟨normalizeAuthorName author_name, "Author of books imported from CSV", "Unknown"⟩

structure LanguageR where
  code : String
  name : String
deriving DecidableEq, Repr

/-- The fixed table of common language names. -/
def languageMap (n : String) : Option (String × String) :=
  if n = "English" then some ("en", "English")
  else if n = "Spanish" then some ("es", "Spanish")
  else if n = "French" then some ("fr", "French")
  else if n = "German" then some ("de", "German")
  else if n = "Italian" then some ("it", "Italian")
  else if n = "Portuguese" then some ("pt", "Portuguese")
  else if n = "Russian" then some ("ru", "Russian")
  else if n = "Japanese" then some ("ja", "Japanese")
  else if n = "Chinese" then some ("zh", "Chinese")
  else none

/-- Code and name derived from a (stripped) language name: the fixed map,
else the first two characters lower-cased and the name truncated to 50. -/
def languageCodeName (language_name : String) : String × String :=
  let t := String.mk (trimList language_name.data)
  match languageMap t with
  | some p => p
  | none => (String.mk (lowList (t.data.take 2)), String.mk (t.data.take 50))

/-- Result of a resolver that may decline falsy input. -/
inductive Resolved (α : Type) where
  | noEntity (t : Table α)
  | entity (r : Nat × α) (t : Table α)
  | raised
deriving Repr

/-- `Command.get_or_create_language`: `None` for falsy or blank input,
else get-or-create on the derived unique code with the name as default. -/
def get_or_create_language (t : Table LanguageR) (language_name : Option String) :
    Resolved LanguageR :=
  match language_name with
  | none => .noEntity t
  | some s =>
    if s = "" ∨ trimList s.data = [] then .noEntity t
    else
      match getOrCreate t (fun x => x.code == (languageCodeName s).1)
          ⟨(languageCodeName s).1, (languageCodeName s).2⟩ with
      | some (r, t') => .entity r t'
      | none => .raised

theorem getOrCreate_idem (t : Table α) (key : α → Bool) (mk : α) (hmk : key mk = true)
    (hcount : (t.rows.filter (fun r => key r.2)).length ≤ 1) :
    ∃ r t', getOrCreate t key mk = some (r, t') ∧ getOrCreate t' key mk = some (r, t') := by
  cases h : t.rows.filter (fun r => key r.2) with
  | nil =>
    refine ⟨(t.nextId, mk), ⟨t.rows ++ [(t.nextId, mk)], t.nextId + 1⟩, ?_, ?_⟩
    · simp only [getOrCreate, h]
    · simp only [getOrCreate, List.filter_append, h, List.nil_append]
      simp [hmk]
  | cons r rest =>
    cases rest with
    | nil =>
      refine ⟨r, t, ?_, ?_⟩ <;> simp only [getOrCreate, h]
    | cons r2 rest2 =>
      rw [h] at hcount
      simp at hcount

/-- C7 (confirmed): the get-or-create resolver is idempotent — for the
author resolver (natural key: normalized name) and the language resolver
(natural key: derived code), resolving the same input twice never creates
a second entity, and the second call returns exactly the entity and table
of the first.  The hypotheses state what the schema guarantees: at most one
existing row per natural key (and, for language, non-blank input so an
entity is resolved at all). -/
theorem resolver_idempotent (ta : Table AuthorR) (an : String)
    (ha : (ta.rows.filter (fun r => r.2.name == normalizeAuthorName an)).length ≤ 1)
    (tl : Table LanguageR) (ln : String)
    (hblank : trimList ln.data ≠ [])
    (hl : (tl.rows.filter (fun r => r.2.code == (languageCodeName ln).1)).length ≤ 1) :
    (∃ r ta', get_or_create_author ta an = some (r, ta') ∧
      get_or_create_author ta' an = some (r, ta')) ∧
    (∃ r tl', get_or_create_language tl (some ln) = .entity r tl' ∧
      get_or_create_language tl' (some ln) = .entity r tl') := by
  constructor
  · exact getOrCreate_idem ta _ _ (by simp) ha
  · obtain ⟨r, t', h1, h2⟩ := getOrCreate_idem tl
      (fun x => x.code == (languageCodeName ln).1)
      ⟨(languageCodeName ln).1, (languageCodeName ln).2⟩ (by simp) hl
    have hcond : ¬(ln = "" ∨ trimList ln.data = []) := by
      rw [not_or]
      refine ⟨?_, hblank⟩
      intro h
      apply hblank
      rw [h]
      rfl
    refine ⟨r, t', ?_, ?_⟩ <;> simp only [get_or_create_language, if_neg hcond] <;>
      first
        | rw [h1]
        | rw [h2]

theorem resolver_idempotent_witness :
    (((⟨[], 1⟩ : Table AuthorR).rows.filter
        (fun r => r.2.name == normalizeAuthorName "Jane Doe")).length ≤ 1) ∧
    trimList "English".data ≠ [] ∧
    (((⟨[], 1⟩ : Table LanguageR).rows.filter
        (fun r => r.2.code == (languageCodeName "English").1)).length ≤ 1) ∧
    ((∃ r ta', get_or_create_author ⟨[], 1⟩ "Jane Doe" = some (r, ta') ∧
        get_or_create_author ta' "Jane Doe" = some (r, ta')) ∧
      (∃ r tl', get_or_create_language ⟨[], 1⟩ (some "English") = .entity r tl' ∧
        get_or_create_language tl' (some "English") = .entity r tl')) :=
  ⟨by decide, by decide, by decide,
    resolver_idempotent ⟨[], 1⟩ "Jane Doe" (by decide) ⟨[], 1⟩ "English" (by decide) (by decide)⟩

/-!  ## Remaining per-record normalization (`import_books.py`) -/

structure CategoryR where
  name : String
  description : String
deriving DecidableEq, Repr

structure PublisherR where
  name : String
deriving DecidableEq, Repr

structure SeriesR where
  name : String
deriving DecidableEq, Repr

structure GenreR where
  name : String
deriving DecidableEq, Repr

structure CharacterR where
  name : String
deriving DecidableEq, Repr

structure AwardR where
  name : String
  year : Option Nat
deriving DecidableEq, Repr

/-- `Command.get_category_from_genres`: strip bracket/quote noise, take the
first `"',"`-separated element, strip quotes twice, truncate the name to
50; get-or-create.  The surrounding `try/except` swallows every failure
into `None`, so this resolver never propagates an error. -/
def get_category_from_genres (t : Table CategoryR) (genres_str : Option String) :
    Option Nat × Table CategoryR :=
  match genres_str with
  | none => (none, t)
  | some s =>
    if s = "" then (none, t)
    else
      let g1 := stripSet ['[', ']', sq, dq] s.data
      if g1 = [] then (none, t)
      else
        let fg := stripSet [sq, dq] (stripSet [sq, dq] ((splitQC g1).headD []))
        if fg = [] then (none, t)
        else
          match getOrCreate t (fun c => c.name == String.mk (fg.take 50))
              ⟨String.mk (fg.take 50), "Category for " ++ String.mk fg ++ " books"⟩ with
          | some (r, t') => (some r.1, t')
          | none => (none, t)

/-- `Command.get_or_create_publisher`: `None` on blank input, else
get-or-create on the stripped name truncated to 200. -/
def get_or_create_publisher (t : Table PublisherR) (publisher_name : Option String) :
    Resolved PublisherR :=
  match publisher_name with
  | none => .noEntity t
  | some s =>
    if s = "" ∨ trimList s.data = [] then .noEntity t
    else
      match getOrCreate t (fun p => p.name == String.mk ((trimList s.data).take 200))
          ⟨String.mk ((trimList s.data).take 200)⟩ with
      | some (r, t') => .entity r t'
      | none => .raised

/-- `Command.get_or_create_series`: `None` on blank input; the series name
is the part before `#`, stripped, truncated to 200. -/
def get_or_create_series (t : Table SeriesR) (series_str : Option String) :
    Resolved SeriesR :=
  match series_str with
  | none => .noEntity t
  | some s =>
    if s = "" ∨ trimList s.data = [] then .noEntity t
    else
      let n0 := trimList s.data
      let n1 := if n0.contains '#' then trimList (n0.takeWhile (fun c => !(c == '#'))) else n0
      let n2 := n1.take 200
      if n2 = [] then .noEntity t
      else
        match getOrCreate t (fun x => x.name == String.mk n2) ⟨String.mk n2⟩ with
        | some (r, t') => .entity r t'
        | none => .raised

/-- `Command.parse_book_format`: lower-case, strip, fixed vocabulary,
anything unrecognized maps to `"other"`. -/
def parse_book_format (format_str : Option String) : Option String :=
  match format_str with
  | none => none
  | some s =>
    if s = "" then none
    else
      let f := String.mk (trimList (lowList s.data))
      if f = "hardcover" then some "hardcover"
      else if f = "paperback" then some "paperback"
      else if f = "mass market paperback" then some "mass_paperback"
      else if f = "audiobook" then some "audiobook"
      else if f = "ebook" then some "ebook"
      else if f = "kindle" then some "ebook"
      else if f = "board book" then some "board_book"
      else some "other"

/-- Join with `", "`. -/
def joinCommaSpace : List (List Char) → List Char
  | [] => []
  | [x] => x
  | x :: y :: rest => x ++ ',' :: ' ' :: joinCommaSpace (y :: rest)

/-- `Command.parse_settings`: strip bracket/quote noise, split on `"',"`,
strip quotes, re-join comma-separated, truncate to 500. -/
def parse_settings (settings_str : Option String) : Option String :=
  match settings_str with
  | none => none
  | some s =>
    if s = "" then none
    else
      let t := stripSet ['[', ']', sq, dq] s.data
      if t = [] then none
      else
        let parts := (splitQC t).map (fun p => stripSet [sq, dq] p)
        some (String.mk ((joinCommaSpace parts).take 500))

/-- A pseudo-list entry becomes its digit value, any non-digit entry zero. -/
def entryVal (l : List Char) : Nat := if pyIsDigit l then digitsToNat l else 0

/-- `Command.parse_ratings_breakdown`: five counts in the order
5★,4★,3★,2★,1★; fewer than five entries (or unparseable noise) leaves all
five at zero. -/
def parse_ratings_breakdown (ratings_str : Option String) : Nat × Nat × Nat × Nat × Nat :=
  match ratings_str with
  | none => (0, 0, 0, 0, 0)
  | some s =>
    if s = "" then (0, 0, 0, 0, 0)
    else
      let t := stripSet ['[', ']', sq, dq] s.data
      if t = [] then (0, 0, 0, 0, 0)
      else
        let parts := (splitQC t).map (fun p => stripSet [sq, dq] p)
        if parts.length ≥ 5 then
          (entryVal (parts.getD 0 []), entryVal (parts.getD 1 []),
            entryVal (parts.getD 2 []), entryVal (parts.getD 3 []),
            entryVal (parts.getD 4 []))
        else (0, 0, 0, 0, 0)

/-!  ## The record pipeline (`process_row`) -/

/-- One CSV record as `csv.DictReader` presents it: for each header column
a value — `none` models Python `None`, the filler of a short row. -/
abbrev Row : Type := List (String × Option String)

/-- `row.get(k, "")`: an absent column yields the default, a present
column its value (possibly Python `None`). -/
def rowGet (r : Row) (k : String) : Option String :=
  match List.lookup k r with
  | none => some ""
  | some v => v

/-- `row.get(k)` without a default. -/
def rowGetN (r : Row) (k : String) : Option String :=
  match List.lookup k r with
  | none => none
  | some v => v

/-- Python `a or b` on optional strings: the first truthy operand. -/
def pyOrStr (a b : Option String) : Option String :=
  match a with
  | some s => if s = "" then b else some s
  | none => b

/-- The dictionary `process_row` returns — the keyword arguments of
`Book.objects.create`. -/
structure BookData where
  title : String
  isbn : String
  description : String
  author : Nat
  category : Option Nat
  price : Dec
  publication_date : PyDate
  first_publication_date : PyDate
  page_count : Option Nat
  average_rating : Option Dec
  num_ratings : Nat
  liked_percent : Option Nat
  bbe_score : Option Nat
  bbe_votes : Option Nat
  ratings_5_star : Nat
  ratings_4_star : Nat
  ratings_3_star : Nat
  ratings_2_star : Nat
  ratings_1_star : Nat
  publisher : Option Nat
  language : Option Nat
  series : Option Nat
  series_info : String
  book_format : Option String
  edition : String
  cover_image_url : String
  settings : Option String
  goodreads_id : String
deriving DecidableEq, Repr

/-- The datastore of the import pipeline: the normalized-entity tables,
the Book table, and the three many-to-many link tables. -/
structure Db where
  authors : Table AuthorR := {}
  categories : Table CategoryR := {}
  publishers : Table PublisherR := {}
  languages : Table LanguageR := {}
  seriesT : Table SeriesR := {}
  genres : Table GenreR := {}
  characters : Table CharacterR := {}
  awards : Table AwardR := {}
  books : List (Nat × BookData) := []
  booksNext : Nat := 1
  bookGenres : List (Nat × Nat) := []
  bookCharacters : List (Nat × Nat) := []
  bookAwards : List (Nat × Nat) := []
deriving Repr

/-- Outcome of `process_row` for one record: skipped (blank or duplicate),
errored (an exception reached `handle`'s per-row `except`), or book data. -/
inductive ProcOut where
  | skip
  | errored
  | data (bd : BookData)
deriving Repr

/-- A resolver step as `process_row` consumes it: `none` when the resolver
raised, otherwise the optional entity id and the updated table. -/
def Resolved.toStep : Resolved α → Option (Option Nat × Table α)
  | .noEntity t => some (none, t)
  | .entity r t => some (some r.1, t)
  | .raised => none

/-- `Command.process_row`, statement for statement in source order.  A
Python-`None` value where the code calls `.strip()` or slices raises (and
is counted by the caller); resolvers that already ran leave their entities
created, since `process_row` runs outside any transaction. -/
def process_row (pyHash : String → Int) (skip_duplicates : Bool) (db : Db) (row : Row) :
    ProcOut × Db :=
  match rowGet row "title", rowGet row "author", rowGet row "isbn" with
  | some t0, some a0, some i0 =>
    let title := String.mk (trimList t0.data)
    let author_name := String.mk (trimList a0.data)
    let isbn0 := String.mk (trimList i0.data)
    if title = "" || author_name = "" then (.skip, db)
    else
      let isbn := isbnOfRow pyHash title author_name isbn0
      if skip_duplicates && db.books.any (fun b => b.2.isbn == isbn) then (.skip, db)
      else
        match get_or_create_author db.authors author_name with
        | none => (.errored, db)
        | some (ar, authorsT) =>
          let db1 := { db with authors := authorsT }
          match get_category_from_genres db1.categories (rowGet row "genres") with
          | (catId, categoriesT) =>
            let db2 := { db1 with categories := categoriesT }
            let price := parse_price (rowGet row "price")
            let publication_date :=
              parse_date (pyOrStr (rowGetN row "publishDate") (rowGetN row "firstPublishDate"))
            let first_publication_date := parse_date (rowGetN row "firstPublishDate")
            let page_count := parse_int (rowGetN row "pages")
            let average_rating := parse_rating (rowGetN row "rating")
            let num_ratings := (parse_int (rowGetN row "numRatings")).getD 0
            let liked_percent := parse_int (rowGetN row "likedPercent")
            let bbe_score := parse_int (rowGetN row "bbeScore")
            let bbe_votes := parse_int (rowGetN row "bbeVotes")
            let breakdown := parse_ratings_breakdown (rowGetN row "ratingsByStars")
            match (get_or_create_publisher db2.publishers (rowGet row "publisher")).toStep with
            | none => (.errored, db2)
            | some (pubId, publishersT) =>
              let db3 := { db2 with publishers := publishersT }
              match (get_or_create_language db3.languages (rowGet row "language")).toStep with
              | none => (.errored, db3)
              | some (langId, languagesT) =>
                let db4 := { db3 with languages := languagesT }
                match (get_or_create_series db4.seriesT (rowGet row "series")).toStep with
                | none => (.errored, db4)
                | some (serId, seriesT') =>
                  let db5 := { db4 with seriesT := seriesT' }
                  let book_format := parse_book_format (rowGet row "bookFormat")
                  let settings := parse_settings (rowGet row "setting")
                  match rowGet row "description", rowGet row "series", rowGet row "edition",
                      rowGet row "coverImg", rowGet row "bookId" with
                  | some desc, some serRaw, some edi, some cov, some gid =>
                    (.data
                      { title := String.mk (title.data.take 500)
                        isbn := isbn
                        description := String.mk (desc.data.take 5000)
                        author := ar.1
                        category := catId
                        price := price
                        publication_date := publication_date
                        first_publication_date := first_publication_date
                        page_count := page_count
                        average_rating := average_rating
                        num_ratings := num_ratings
                        liked_percent := liked_percent
                        bbe_score := bbe_score
                        bbe_votes := bbe_votes
                        ratings_5_star := breakdown.1
                        ratings_4_star := breakdown.2.1
                        ratings_3_star := breakdown.2.2.1
                        ratings_2_star := breakdown.2.2.2.1
                        ratings_1_star := breakdown.2.2.2.2
                        publisher := pubId
                        language := langId
                        series := serId
                        series_info := String.mk (serRaw.data.take 100)
                        book_format := book_format
                        edition := String.mk (edi.data.take 100)
                        cover_image_url := String.mk (cov.data.take 500)
                        settings := settings
                        goodreads_id := String.mk (gid.data.take 100) }, db5)
                  | _, _, _, _, _ => (.errored, db5)
  | _, _, _ => (.errored, db)

/-!  ## Many-to-many attachment and batch commit -/

/-- `book.<m2m>.add(e)`: set semantics, adding an existing link is a no-op. -/
def addLink (links : List (Nat × Nat)) (l : Nat × Nat) : List (Nat × Nat) :=
  if links.contains l then links else links ++ [l]

def headIs (c : Char) : List Char → Bool
  | x :: _ => x == c
  | [] => false

def lastIs (c : Char) (l : List Char) : Bool := headIs c l.reverse

/-- Python `s[1:-1]`. -/
def dropEnds (l : List Char) : List Char := (l.drop 1).dropLast

/-- Quotes in a suffix. -/
def countQ (l : List Char) : Nat := (l.filter (fun c => c == sq)).length

/-- The quote-aware comma split of `add_genres_to_book`: the lookahead
regex splits at a comma exactly when an even number of single quotes
follows it. -/
def splitRegexAux : List Char → List Char → List (List Char)
  | acc, [] => [acc.reverse]
  | acc, c :: cs =>
    if c == ',' && countQ cs % 2 == 0 then acc.reverse :: splitRegexAux [] cs
    else splitRegexAux (c :: acc) cs

def splitRegex (l : List Char) : List (List Char) := splitRegexAux [] l

/-- Per-part genre cleaning: strip whitespace, drop one matching outer
quote pair, strip remaining quote/whitespace noise, drop a trailing colon. -/
def genreCleanPart (p : List Char) : List Char :=
  let g0 := trimList p
  let g1 :=
    if headIs sq g0 && lastIs sq g0 then dropEnds g0
    else if headIs dq g0 && lastIs dq g0 then dropEnds g0
    else g0
  let g2 := stripSet [sq, dq, ' ', '\n', '\r', '\t'] g1
  if lastIs ':' g2 then trimList g2.dropLast else g2

def attachGenres (db : Db) (bookId : Nat) : List (List Char) → Db
  | [] => db
  | n :: rest =>
    if n.isEmpty then attachGenres db bookId rest
    else
      match getOrCreate db.genres (fun g => g.name == String.mk n) ⟨String.mk n⟩ with
      | none => db
      | some (gr, gt) =>
        attachGenres
          { db with genres := gt, bookGenres := addLink db.bookGenres (bookId, gr.1) }
          bookId rest

/-- `Command.add_genres_to_book`.  Its `except` swallows every error, so a
resolver failure stops the loop but keeps what was already attached. -/
def add_genres_to_book (db : Db) (bookId : Nat) (genres_str : Option String) : Db :=
  match genres_str with
  | none => db
  | some s =>
    if s = "" then db
    else
      let t0 := trimList s.data
      let t1 := if headIs '[' t0 && lastIs ']' t0 then dropEnds t0 else t0
      if t1 = [] then db
      else
        let names := (((splitRegex t1).map genreCleanPart).filter
          (fun g => !g.isEmpty && !(trimList g).isEmpty)).map (fun g => (trimList g).take 50)
        attachGenres db bookId (names.take 5)

def attachCharacters (db : Db) (bookId : Nat) : List (List Char) → Db
  | [] => db
  | n :: rest =>
    if n.isEmpty then attachCharacters db bookId rest
    else
      let nm := String.mk ((trimList n).take 200)
      match getOrCreate db.characters (fun c => c.name == nm) ⟨nm⟩ with
      | none => db
      | some (cr, ct) =>
        attachCharacters
          { db with
            characters := ct
            bookCharacters := addLink db.bookCharacters (bookId, cr.1) }
          bookId rest

/-- `Command.add_characters_to_book` (first ten characters). -/
def add_characters_to_book (db : Db) (bookId : Nat) (characters_str : Option String) : Db :=
  match characters_str with
  | none => db
  | some s =>
    if s = "" then db
    else
      let t := stripSet ['[', ']', sq, dq] s.data
      if t = [] then db
      else attachCharacters db bookId (((splitQC t).map (stripSet [sq, dq])).take 10)

/-- The optional `"(year)"` of an award name: digits after the last `(`
up to the next `)`. -/
def awardYear (l : List Char) : Option Nat :=
  if l.contains '(' && l.contains ')' then
    let ys := ((l.reverse.takeWhile (fun c => !(c == '('))).reverse).takeWhile
      (fun c => !(c == ')'))
    if pyIsDigit ys then some (digitsToNat ys) else none
  else none

def attachAwards (db : Db) (bookId : Nat) : List (List Char) → Db
  | [] => db
  | n :: rest =>
    if n.isEmpty then attachAwards db bookId rest
    else
      let nm := (trimList n).take 500
      match getOrCreate db.awards
          (fun a => a.name == String.mk nm && a.year == awardYear nm)
          ⟨String.mk nm, awardYear nm⟩ with
      | none => db
      | some (ar, at') =>
        attachAwards
          { db with awards := at', bookAwards := addLink db.bookAwards (bookId, ar.1) }
          bookId rest

/-- `Command.add_awards_to_book` (first ten awards). -/
def add_awards_to_book (db : Db) (bookId : Nat) (awards_str : Option String) : Db :=
  match awards_str with
  | none => db
  | some s =>
    if s = "" then db
    else
      let t := stripSet ['[', ']', sq, dq] s.data
      if t = [] then db
      else attachAwards db bookId (((splitQC t).map (stripSet [sq, dq])).take 10)

/-- `Book.objects.create(**book_data)`: the unique ISBN constraint makes
the insert fail (`IntegrityError`) when a book with this ISBN exists;
otherwise the row is inserted with the next surrogate id. -/
def insertBook (db : Db) (bd : BookData) : Option (Nat × Db) :=
  if db.books.any (fun b => b.2.isbn == bd.isbn) then none
  else some (db.booksNext,
    { db with books := db.books ++ [(db.booksNext, bd)], booksNext := db.booksNext + 1 })

/-- `Command.create_books_batch`: each record in its own transaction —
insert the row, then attach genres/characters/awards from the i-th raw
row; a failure is logged and the loop continues with the next record, the
failed record's work undone and nothing else affected. -/
def create_books_batch : List BookData → List Row → Db → Db
  | [], _, db => db
  | bd :: rest, rows, db =>
    match insertBook db bd with
    | none => create_books_batch rest (rows.drop 1) db
    | some (bid, dbIns) =>
      match rows with
      | [] => create_books_batch rest [] dbIns
      | row :: rowsRest =>
        let d1 := add_genres_to_book dbIns bid (rowGet row "genres")
        let d2 := add_characters_to_book d1 bid (rowGet row "characters")
        let d3 := add_awards_to_book d2 bid (rowGet row "awards")
        create_books_batch rest rowsRest d3

/-!  ## The import run (`Command.handle`) -/

inductive CmdError where
  | fileNotFound
  | missingFields (fields : List String)
deriving DecidableEq, Repr

structure ImportReport where
  created : Nat
  skipped : Nat
  errors : Nat
deriving DecidableEq, Repr

/-- The record source: header-declared field names and the data rows. -/
structure CsvFile where
  fieldnames : List String
  rows : List Row
deriving Repr

def requiredFields : List String := ["title", "author", "isbn"]

structure LoopState where
  created : Nat
  skipped : Nat
  errors : Nat
  batchB : List BookData
  batchR : List Row
  db : Db
deriving Repr

/-- `if limit and row_num - 1 > limit: break` — a limit of 0 is falsy and
means no limit; `i` is the 0-based record index (`row_num - 2`). -/
def limitHit (limit : Option Nat) (i : Nat) : Bool :=
  match limit with
  | some l => !(l == 0) && decide (i + 1 > l)
  | none => false

/-- The per-row loop of `handle`: count a produced record as created and
buffer it, count a skip, count an error (aborting once more than 100
errors accumulate), and flush a full batch. -/
def handleLoop (pyHash : String → Int) (batch_size : Nat) (limit : Option Nat)
    (skipDup : Bool) : List Row → Nat → LoopState → LoopState
  | [], _, st => st
  | row :: rest, i, st =>
    if limitHit limit i then st
    else
      match process_row pyHash skipDup st.db row with
      | (.skip, db') =>
        handleLoop pyHash batch_size limit skipDup rest (i + 1)
          { st with skipped := st.skipped + 1, db := db' }
      | (.errored, db') =>
        if st.errors + 1 > 100 then { st with errors := st.errors + 1, db := db' }
        else
          handleLoop pyHash batch_size limit skipDup rest (i + 1)
            { st with errors := st.errors + 1, db := db' }
      | (.data bd, db') =>
        let st' := { st with
          created := st.created + 1
          batchB := st.batchB ++ [bd]
          batchR := st.batchR ++ [row]
          db := db' }
        if st'.batchB.length ≥ batch_size then
          handleLoop pyHash batch_size limit skipDup rest (i + 1)
            { st' with
              batchB := []
              batchR := []
              db := create_books_batch st'.batchB st'.batchR st'.db }
        else handleLoop pyHash batch_size limit skipDup rest (i + 1) st'

/-- `Command.handle`: a missing file or missing required header columns
abort with a `CommandError` before any record is processed; otherwise run
the loop, flush the final partial batch, and report created/skipped/error
counts. -/
def handle (pyHash : String → Int) (file : Option CsvFile) (batch_size : Nat)
    (limit : Option Nat) (skipDup : Bool) (db : Db) :
    Except CmdError (ImportReport × Db) :=
  match file with
  | none => .error .fileNotFound
  | some f =>
    let missing := requiredFields.filter (fun x => !f.fieldnames.contains x)
    if missing ≠ [] then .error (.missingFields missing)
    else
      let st := handleLoop pyHash batch_size limit skipDup f.rows 0 ⟨0, 0, 0, [], [], db⟩
      let dbF := if st.batchB ≠ [] then create_books_batch st.batchB st.batchR st.db else st.db
      .ok (⟨st.created, st.skipped, st.errors⟩, dbF)

/-- C8 (confirmed): an import whose header misses any of
{title, author, isbn} aborts with a configuration error naming exactly the
missing fields, independent of the data rows (no record is processed or
counted); a missing input file aborts with its own configuration error. -/
theorem csv_config_errors_abort (pyHash : String → Int) (f : CsvFile) (bs : Nat)
    (lim : Option Nat) (sd : Bool) (db : Db)
    (h : requiredFields.filter (fun x => !f.fieldnames.contains x) ≠ []) :
    handle pyHash (some f) bs lim sd db =
      .error (.missingFields (requiredFields.filter (fun x => !f.fieldnames.contains x))) ∧
    (∀ rows2, handle pyHash (some (CsvFile.mk f.fieldnames rows2)) bs lim sd db =
      handle pyHash (some f) bs lim sd db) ∧
    handle pyHash none bs lim sd db = .error .fileNotFound := by
  refine ⟨?_, ?_, rfl⟩
  · simp only [handle]
    rw [if_pos h]
  · intro rows2
    simp only [handle]
    rw [if_pos h, if_pos h]

theorem csv_config_errors_abort_witness :
    (requiredFields.filter
      (fun x => !(CsvFile.mk ["title", "author"] []).fieldnames.contains x) ≠ []) ∧
    (handle (fun _ => 0) (some (CsvFile.mk ["title", "author"] [])) 100 none false {} =
        .error (.missingFields (requiredFields.filter
          (fun x => !(CsvFile.mk ["title", "author"] []).fieldnames.contains x))) ∧
      (∀ rows2, handle (fun _ => 0) (some (CsvFile.mk ["title", "author"] rows2)) 100 none
          false {} =
        handle (fun _ => 0) (some (CsvFile.mk ["title", "author"] [])) 100 none false {}) ∧
      handle (fun _ => 0) (none : Option CsvFile) 100 none false {} = .error .fileNotFound) :=
  ⟨by decide,
    csv_config_errors_abort (fun _ => 0) (CsvFile.mk ["title", "author"] []) 100 none
      false {} (by decide)⟩

/-- A fixed interpreter hash for concrete runs. -/
def fixedHash : String → Int := fun _ => 0

def dupRow1 : Row := [("title", some "Alpha"), ("author", some "Ann"),
  ("isbn", some "1111111111111")]

def dupRow2 : Row := [("title", some "Beta"), ("author", some "Bob"),
  ("isbn", some "1111111111111")]

def dupFile : CsvFile := ⟨["title", "author", "isbn"], [dupRow1, dupRow2]⟩

/-- Created/skipped/error counts and the number of Book rows of a run. -/
def reportView : Except CmdError (ImportReport × Db) → Option (Nat × Nat × Nat × Nat)
  | .ok (r, db) => some (r.created, r.skipped, r.errors, db.books.length)
  | .error _ => none

/-- C4 (code-bug support): importing two rows that share an ISBN with
skip-duplicates off reports `created = 2` with zero errors, yet only one
Book row exists — the second `Book.objects.create` fails the unique-ISBN
constraint inside `create_books_batch`, which logs and continues without
decrementing the created count or counting an error, so the reported
created count does not equal the number of records actually created. -/
theorem csv_created_count_overstated :
    reportView (handle fixedHash (some dupFile) 100 none false {}) = some (2, 0, 0, 1) := by
  decide

theorem parse_price_in_range (s : Option String) :
    Dec.ltB ⟨0, 0⟩ (parse_price s) = true ∧ Dec.ltB (parse_price s) ⟨1000, 0⟩ = true := by
  match s with
  | none => decide
  | some str =>
    rw [parse_price_characterization]
    cases h : pyDecimal (cleanPrice str) with
    | none => decide
    | some d =>
      dsimp only
      by_cases hr : (Dec.ltB ⟨0, 0⟩ d && Dec.ltB d ⟨1000, 0⟩) = true
      · rw [if_pos hr]
        exact ⟨((Bool.and_eq_true _ _).mp hr).1, ((Bool.and_eq_true _ _).mp hr).2⟩
      · rw [if_neg hr]
        decide

/-- The declared validators of `Book.liked_percent`
(`MinValueValidator(0)`, `MaxValueValidator(100)`; nonnegativity is the
field type). -/
def likedPercentValid (v : Option Nat) : Prop := ∀ n, v = some n → n ≤ 100

def likedRow : Row := [("title", some "Gamma"), ("author", some "Carol"),
  ("isbn", some "2222222222222"), ("likedPercent", some "150")]

def likedOf : ProcOut × Db → Option (Option Nat)
  | (.data bd, _) => some bd.liked_percent
  | _ => none

/-- C9 (code-bug support): the price parser always yields a value in
(0, 1000) and the rating parser only values in [0, 5], but `liked_percent`
is parsed by the generic `(0, 10000)` integer parser and stored by
`Book.objects.create` without running validators: the record with
`likedPercent = "150"` produces book data whose stored liked_percent is
150, violating the model's declared [0, 100] bound. -/
theorem csv_liked_percent_unvalidated :
    (∀ s, Dec.ltB ⟨0, 0⟩ (parse_price s) = true ∧ Dec.ltB (parse_price s) ⟨1000, 0⟩ = true) ∧
    (∀ s, (parse_rating s).all (fun r => Dec.leB ⟨0, 0⟩ r && Dec.leB r ⟨5, 0⟩) = true) ∧
    parse_int (some "150") = some 150 ∧
    likedOf (process_row fixedHash false {} likedRow) = some (some 150) ∧
    ¬ likedPercentValid (some 150) := by
  refine ⟨parse_price_in_range, parse_rating_in_range, by decide, by decide, ?_⟩
  intro h
  have h150 := h 150 rfl
  omega

end Bookstore
